import Mathlib

/-!
Verification development for the `jotta_tray` repository: a shallow
embedding of the status-polling, CLI-gateway, formatting and autostart
logic, with theorems checking the natural-language specification.

Conventions of the embedding:
* Python dictionaries decoded from JSON are modelled by the inductive
  `Json`; a decoded top-level payload is a `List (String × Json)`.
* Machine floats in `format_bytes` / `detect_quota_warning` are modelled
  by exact rationals (`Rat`); Python's round-half-even formatting is
  reproduced by `roundHalfEven`.
* Python code that can raise is modelled with `Option` / `Except`; a
  `none` / `.error` result stands for a raised exception.
* Timestamps (`datetime.now()`) are modelled as integer seconds passed
  explicitly.
-/

set_option autoImplicit false

namespace JottaTray

/-- Json values as decoded by `json.loads`; numeric payload fields of this
application (byte counts, file counts) are integers, so numbers are
modelled at `Int`. -/
inductive Json where
  | null
  | bool (b : Bool)
  | num (n : Int)
  | str (s : String)
  | arr (xs : List Json)
  | obj (fields : List (String × Json))

/-- Python `d.get(k, dflt)` on a decoded dictionary. -/
def dictGet (d : List (String × Json)) (k : String) (dflt : Json) : Json :=
  match d.find? (fun p => p.1 == k) with
  | some p => p.2
  | none => dflt

/-- Python `isinstance(v, dict)` refinement: the fields when `v` is a
dictionary, `none` otherwise. -/
def Json.asDict? : Json → Option (List (String × Json))
  | .obj fields => some fields
  | _ => none

/-- Python `isinstance(v, int)` refinement used for numeric payload
fields. -/
def Json.asInt? : Json → Option Int
  | .num n => some n
  | _ => none

/-- Python truthiness (`if not v`) of a decoded Json value. -/
def pyTruthy : Json → Bool
  | .null => false
  | .bool b => b
  | .num n => n != 0
  | .str s => s != ""
  | .arr xs => !xs.isEmpty
  | .obj fields => !fields.isEmpty

/-! ## utils.py -/

/-- Round a rational to the nearest integer, ties to even: the rounding
Python's fixed-point float formatting applies. -/
def roundHalfEven (q : Rat) : Int :=
  let f : Int := q.floor
  let r : Rat := q - (f : Rat)
  if r < 1/2 then f
  else if 1/2 < r then f + 1
  else if f % 2 = 0 then f else f + 1

/-- Left-pad a digit string with zeros to the given length. -/
def padLeftZeros (s : String) (len : Nat) : String :=
  if len ≤ s.length then s
  else String.mk (List.replicate (len - s.length) '0') ++ s

/-- Python `f"{q:.{d}f}"` for a non-negative rational `q`: fixed-point
with `d` decimal places, round-half-even. -/
def formatFixed (q : Rat) (d : Nat) : String :=
  let scaled : Nat := (roundHalfEven (q * (10 : Rat) ^ d)).toNat
  if d = 0 then toString scaled
  else toString (scaled / 10 ^ d) ++ "." ++ padLeftZeros (toString (scaled % 10 ^ d)) d

/-- The unit names of `format_bytes` (utils.py line 29). -/
def fbUnits : List String := ["B", "KB", "MB", "GB", "TB", "PB"]

/-- The `while value >= 1024.0 and unit_index < len(units) - 1` loop of
`format_bytes` (utils.py lines 34-36): `remaining` counts the divisions
still allowed (`len(units) - 1 - unit_index`). -/
def fbGo (value : Rat) (idx : Nat) : Nat → Rat × Nat
  | 0 => (value, idx)
  | r + 1 => if 1024 ≤ value then fbGo (value / 1024) (idx + 1) r else (value, idx)

/-- utils.py `format_bytes` (lines 7-41). `int(value)` at the B tier is a
floor, the value being non-negative there. -/
def format_bytes (bytes_value : Int) (decimal_places : Nat) : String :=
  if bytes_value < 0 then "0 B"
  else
    let p := fbGo (bytes_value : Rat) 0 (fbUnits.length - 1)
    if p.2 = 0 then toString p.1.floor ++ " " ++ fbUnits.getD p.2 "B"
    else formatFixed p.1 decimal_places ++ " " ++ fbUnits.getD p.2 "PB"

/-- utils.py `format_quota` (lines 44-69): percentage rendered with
`:.0f` (round-half-even to integer). -/
def format_quota (used total : Int) : String × Rat :=
  if total = 0 then ("Unknown quota", 0)
  else
    let percentage : Rat := (used : Rat) / (total : Rat) * 100
    let used_str := format_bytes used 1
    let total_str := format_bytes total 1
    (used_str ++ " / " ++ total_str ++ " (" ++ toString (roundHalfEven percentage) ++ "%)",
     percentage)

/-- utils.py `format_file_count` (lines 106-119). -/
def format_file_count (count : Int) : String :=
  if count = 1 then "1 file" else toString count ++ " files"

/-- utils.py `parse_sync_state` (lines 135-156): `state_data` is the
decoded `State` dictionary. -/
def parse_sync_state (state_data : List (String × Json)) : String :=
  let uploading := dictGet state_data "Uploading" (Json.obj [])
  let downloading := dictGet state_data "Downloading" (Json.obj [])
  let has_uploads := match uploading with
    | .obj fields => decide (0 < fields.length)
    | _ => false
  let has_downloads := match downloading with
    | .obj fields => decide (0 < fields.length)
    | _ => false
  if has_uploads || has_downloads then "syncing" else "idle"

/-- utils.py `detect_quota_warning` (lines 159-175). -/
def detect_quota_warning (used total : Int) (threshold_percent : Rat) : Bool :=
  if total = 0 then false
  else decide (threshold_percent ≤ (used : Rat) / (total : Rat) * 100)

/-! ## cli_interface.py -/

/-- The exception hierarchy of cli_interface.py (lines 12-24): every
constructor is a `JottaCLIError`; `daemonOffline` embeds
`DaemonOfflineError`, `cliNotFound` embeds `CLINotFoundError`, and
`generic` embeds a directly raised `JottaCLIError` with its message. -/
inductive JTError where
  | daemonOffline
  | cliNotFound
  | generic (msg : String)

/-- Outcome of one `subprocess.run` invocation in `_run_command`
(cli_interface.py lines 41-76): the executable may be missing
(`FileNotFoundError`), the call may exceed its timeout
(`subprocess.TimeoutExpired`), or the process completes with an exit
code, stdout and stderr.  stdout is carried as the result of
`json.loads` (`.ok` decoded dictionary / `.error` decode-error text),
the JSON parser itself being external library code. -/
inductive RunOutcome where
  | fileNotFound
  | timeout
  | completed (returncode : Int) (stdout : Except String (List (String × Json))) (stderr : String)

/-- Substring test used for the stderr classification in `run_status`
(Python `in` on strings). -/
def containsSubstr (s sub : String) : Bool :=
  decide (1 < (s.splitOn sub).length)

/-- cli_interface.py `run_status` (lines 78-116): `_run_command` raising
`FileNotFoundError` becomes `CLINotFoundError`; a timeout is caught and
re-raised as a plain `JottaCLIError`; non-zero exit is classified into
`DaemonOfflineError` or a generic failure by substring match on stderr;
undecodable stdout is a generic failure. -/
def run_status (o : RunOutcome) : Except JTError (List (String × Json)) :=
  match o with
  | .fileNotFound => .error .cliNotFound
  | .timeout => .error (.generic "Status command timed out - daemon may be unresponsive")
  | .completed rc stdout stderr =>
    if rc ≠ 0 then
      let error_msg := stderr.trim
      if containsSubstr error_msg.toLower "connection refused" ||
         containsSubstr error_msg.toLower "not running" then
        .error .daemonOffline
      else
        .error (.generic ("jotta-cli status failed: " ++ error_msg))
    else
      match stdout with
      | .ok status_data => .ok status_data
      | .error e => .error (.generic ("Invalid JSON from jotta-cli: " ++ e))

/-- cli_interface.py `run_pause` (lines 118-138). -/
def run_pause (o : RunOutcome) : Except JTError Bool :=
  match o with
  | .fileNotFound => .error .cliNotFound
  | .timeout => .error (.generic "Pause command timed out")
  | .completed rc _ stderr =>
    if rc ≠ 0 then .error (.generic ("Pause failed: " ++ stderr.trim))
    else .ok true

/-- cli_interface.py `run_resume` (lines 140-160). -/
def run_resume (o : RunOutcome) : Except JTError Bool :=
  match o with
  | .fileNotFound => .error .cliNotFound
  | .timeout => .error (.generic "Resume command timed out")
  | .completed rc _ stderr =>
    if rc ≠ 0 then .error (.generic ("Resume failed: " ++ stderr.trim))
    else .ok true

/-- cli_interface.py `check_available` (lines 227-241): `run_status` only
raises `JottaCLIError` subclasses, each of which this method catches, so
it always returns a Bool (`.ok`); the `Except` codomain records that a
non-`JottaCLIError` exception would propagate, which never happens. -/
def check_available (o : RunOutcome) : Except JTError Bool :=
  match run_status o with
  | .ok _ => .ok true
  | .error .cliNotFound => .ok false
  | .error .daemonOffline => .ok false
  | .error (.generic _) => .ok true

/-! ## main.py startup -/

/-- What `JottaTrayApp.start` (main.py lines 62-94) does after the
availability check. -/
inductive StartAction where
  | continueStartup
  | exitCliNotFound
  | exitFatal

/-- main.py `JottaTrayApp.start` lines 66-78: `check_available` is called
inside a `try`; a `False` result only logs and the startup continues; a
raised `CLINotFoundError` would show an error dialog and exit; any other
escaping exception would reach `main`'s generic handler and exit
fatally. -/
def appStart (o : RunOutcome) : StartAction :=
  match check_available o with
  | .ok _ => .continueStartup
  | .error .cliNotFound => .exitCliNotFound
  | .error _ => .exitFatal

/-! ## status_monitor.py -/

/-- status_monitor.py `SyncStatus` dataclass (lines 16-28);
`last_update` is the snapshot-creation time in seconds. -/
structure SyncStatus where
  state : String
  used_bytes : Int
  total_bytes : Int
  local_files : Int
  remote_files : Int
  uploading_count : Int
  downloading_count : Int
  last_update : Int
  quota_warning : Bool

/-- status_monitor.py `StatusMonitor.QUOTA_CACHE_TTL` (line 40). -/
def QUOTA_CACHE_TTL : Int := 300

/-- status_monitor.py `StatusMonitor._determine_state` (lines 206-227):
`none` stands for a raised `AttributeError` when a present `Sync` or
`State` section is not a dictionary. -/
def determine_state (status_data : List (String × Json)) : Option String :=
  match (dictGet status_data "Sync" (Json.obj [])).asDict? with
  | none => none
  | some sync_data =>
    let sync_enabled := dictGet sync_data "Enabled" (Json.bool true)
    if !pyTruthy sync_enabled then some "paused"
    else
      match (dictGet status_data "State" (Json.obj [])).asDict? with
      | none => none
      | some state_data => some (parse_sync_state state_data)

/-- The payload read performed by the refresh branch of
`StatusMonitor._get_quota` (lines 246-251): `User.AccountInfo.Usage` and
`User.AccountInfo.Capacity`, defaulting to 0. -/
def fresh_quota_vals (status_data : List (String × Json)) : Option (Int × Int) :=
  match (dictGet status_data "User" (Json.obj [])).asDict? with
  | none => none
  | some user_data =>
    match (dictGet user_data "AccountInfo" (Json.obj [])).asDict? with
    | none => none
    | some account_info =>
      match (dictGet account_info "Usage" (Json.num 0)).asInt?,
            (dictGet account_info "Capacity" (Json.num 0)).asInt? with
      | some used, some total => some (used, total)
      | _, _ => none

/-- status_monitor.py `StatusMonitor._get_quota` (lines 229-259), with
the mutable fields `_cached_quota` / `_last_quota_check` passed and
returned explicitly: the result is the returned (used, total) pair
together with the new cache and its timestamp. -/
def get_quota (cached : Option (Int × Int)) (lastCheck now : Int)
    (status_data : List (String × Json)) :
    Option ((Int × Int) × Option (Int × Int) × Int) :=
  match cached with
  | some q =>
    if now - lastCheck < QUOTA_CACHE_TTL then some (q, some q, lastCheck)
    else (fresh_quota_vals status_data).map (fun v => (v, some v, now))
  | none => (fresh_quota_vals status_data).map (fun v => (v, some v, now))

/-- The `except DaemonOfflineError` branch of
`StatusMonitor._fetch_status` (lines 190-204): the offline snapshot
built from the quota cache. `self._cached_quota if self._cached_quota
else (0, 0)` is `getD (0, 0)` (a cached pair is a non-empty tuple, hence
truthy). -/
def fetch_status_offline (cached : Option (Int × Int)) (now : Int) : SyncStatus :=
  let q := cached.getD (0, 0)
  { state := "offline"
    used_bytes := q.1
    total_bytes := q.2
    local_files := 0
    remote_files := 0
    uploading_count := 0
    downloading_count := 0
    last_update := now
    quota_warning := false }

/-- status_monitor.py `StatusMonitor._has_changed` (lines 261-282). -/
def hasChanged (last : Option SyncStatus) (new_status : SyncStatus) : Bool :=
  match last with
  | none => true
  | some l =>
    (new_status.state != l.state) ||
    (new_status.uploading_count != l.uploading_count) ||
    (new_status.downloading_count != l.downloading_count) ||
    (new_status.quota_warning != l.quota_warning)

/-- The callback fan-out of `StatusMonitor._monitor_loop` (lines
120-124): each registered callback (an id paired with its behaviour on a
snapshot) is invoked in registration order inside its own
`try/except Exception`; the result is the ordered list of invoked
callback ids and the logged (id, message) errors. -/
def notifyAll (status : SyncStatus) :
    List (Nat × (SyncStatus → Except String Unit)) → List Nat × List (Nat × String)
  | [] => ([], [])
  | (cid, f) :: rest =>
    let tail := notifyAll status rest
    match f status with
    | .ok _ => (cid :: tail.1, tail.2)
    | .error m => (cid :: tail.1, (cid, m) :: tail.2)

/-- The mutable state of `StatusMonitor` relevant to one loop iteration:
the last known snapshot and the registered callbacks (`add_callback`
appends, so list order is registration order). -/
structure MonitorState where
  last_status : Option SyncStatus
  callbacks : List (Nat × (SyncStatus → Except String Unit))

/-- One iteration of the `while self._running` body of
`StatusMonitor._monitor_loop` (lines 109-137), the fetch outcome given
as an `Except` (`.error` = `_fetch_status` raised, caught by the outer
`except Exception`, previous snapshot retained): returns the new monitor
state, the invoked callback ids in order, and the logged callback
errors. -/
def monitorIter (st : MonitorState) (fetch : Except String SyncStatus) :
    MonitorState × List Nat × List (Nat × String) :=
  match fetch with
  | .error _ => (st, [], [])
  | .ok status =>
    if hasChanged st.last_status status then
      let r := notifyAll status st.callbacks
      ({ st with last_status := some status }, r.1, r.2)
    else
      ({ st with last_status := some status }, [], [])

/-! ## autostart.py -/

/-- Outcome of one filesystem primitive (`mkdir`, `shutil.copy2`,
`Path.unlink`): success, a raised `PermissionError`, or any other raised
exception, each with its message. -/
inductive PrimResult where
  | ok
  | permError (msg : String)
  | otherError (msg : String)

/-- The filesystem environment autostart.py runs against: whether the
bundled template and the installed autostart file exist, the paths
involved, and how each filesystem primitive behaves when invoked. -/
structure AutostartEnv where
  template_path : String
  dest_path : String
  template_exists : Bool
  file_exists : Bool
  mkdir_result : PrimResult
  copy_result : PrimResult
  unlink_result : PrimResult

/-- autostart.py `install_autostart` (lines 74-107): the `AutostartError`
from `get_desktop_file_path` (template missing, lines 20-39) and any
`PermissionError` / other exception from `mkdir`/`copy2` are caught and
mapped to a `(False, message)` pair; on success the file is installed
and `(True, message)` returned. -/
def install_autostart (env : AutostartEnv) : (Bool × String) × AutostartEnv :=
  if !env.template_exists then
    ((false, "Desktop file template not found at " ++ env.template_path ++
      ". This may indicate an incomplete installation."), env)
  else
    match env.mkdir_result with
    | .permError m =>
      ((false, "Permission denied: Unable to write to autostart directory.\n" ++ m), env)
    | .otherError m =>
      ((false, "Failed to install autostart:\n" ++ m), env)
    | .ok =>
      match env.copy_result with
      | .permError m =>
        ((false, "Permission denied: Unable to write to autostart directory.\n" ++ m), env)
      | .otherError m =>
        ((false, "Failed to install autostart:\n" ++ m), env)
      | .ok =>
        ((true, "Autostart enabled successfully.\nDesktop file installed to:\n" ++
          env.dest_path), { env with file_exists := true })

/-- autostart.py `uninstall_autostart` (lines 110-138): a missing file is
reported as success ("already disabled") with no filesystem change;
`PermissionError` / other exceptions from `unlink` are caught and mapped
to `(False, message)`. -/
def uninstall_autostart (env : AutostartEnv) : (Bool × String) × AutostartEnv :=
  if !env.file_exists then
    ((true, "Autostart is already disabled."), env)
  else
    match env.unlink_result with
    | .permError m =>
      ((false, "Permission denied: Unable to remove autostart file.\n" ++ m), env)
    | .otherError m =>
      ((false, "Failed to remove autostart:\n" ++ m), env)
    | .ok =>
      ((true, "Autostart disabled successfully."), { env with file_exists := false })

/-! ## Specification-side definitions (for refinement claims) -/

/-- Modelled from the spec: the unit tier of `format_bytes` is "chosen by
repeated division by 1024 until the value is below 1024 or the largest
unit is reached", i.e. the least `k` with `n < 1024 ^ (k + 1)`, capped
at the PB tier (`k = 5`). -/
def specUnitIndex (n : Int) : Nat :=
  if n < 1024 then 0
  else if n < 1024 ^ 2 then 1
  else if n < 1024 ^ 3 then 2
  else if n < 1024 ^ 4 then 3
  else if n < 1024 ^ 5 then 4
  else 5

/-- Modelled from the spec: `format_bytes` as the spec describes it —
negative input clamps to "0 B"; the B tier prints the integer with zero
decimal places; higher tiers print the value divided down to its tier
with the configured decimal count. -/
def specFormatBytes (n : Int) (d : Nat) : String :=
  if n < 0 then "0 B"
  else
    let k := specUnitIndex n
    if k = 0 then toString n ++ " B"
    else formatFixed ((n : Rat) / 1024 ^ k) d ++ " " ++ fbUnits.getD k "PB"

/-! ## Concrete sample inputs used by witnesses -/

/-- A sample snapshot. -/
def sampleStatus : SyncStatus :=
  { state := "idle", used_bytes := 10, total_bytes := 100, local_files := 1,
    remote_files := 2, uploading_count := 0, downloading_count := 0,
    last_update := 0, quota_warning := false }

/-- A callback that raises on every snapshot. -/
def cbFail : SyncStatus → Except String Unit := fun _ => Except.error "boom"

/-- A callback that succeeds on every snapshot. -/
def cbOk : SyncStatus → Except String Unit := fun _ => Except.ok ()

/-- A monitor state with no previous snapshot and two callbacks, the
first of which raises. -/
def monW : MonitorState :=
  { last_status := none, callbacks := [(0, cbFail), (1, cbOk)] }

/-- A monitor state whose previous snapshot is `sampleStatus`. -/
def monPrev : MonitorState :=
  { last_status := some sampleStatus, callbacks := [(0, cbOk), (1, cbOk)] }

/-- A sample decoded status payload with usage 5 of 10 bytes. -/
def pdQuota : List (String × Json) :=
  [("User", Json.obj [("AccountInfo",
    Json.obj [("Usage", Json.num 5), ("Capacity", Json.num 10)])])]

/-- A sample decoded status payload: sync enabled, one upload in
flight. -/
def pdSyncing : List (String × Json) :=
  [("Sync", Json.obj [("Enabled", Json.bool true)]),
   ("State", Json.obj [("Uploading", Json.obj [("f.txt", Json.null)])])]

/-- An autostart environment with no installed file and all primitives
succeeding. -/
def envBase : AutostartEnv :=
  { template_path := "/opt/jotta_tray/jotta-tray.desktop",
    dest_path := "/home/user/.config/autostart/jotta-tray.desktop",
    template_exists := true, file_exists := false,
    mkdir_result := .ok, copy_result := .ok, unlink_result := .ok }

/-! ## Helper lemmas -/

/-- The helper `parse_sync_state` only ever yields "syncing" or "idle". -/
theorem parse_sync_state_ne_paused (state_data : List (String × Json)) :
    parse_sync_state state_data ≠ "paused" := by
  simp only [parse_sync_state]
  split <;> decide

/-- The fan-out invokes every registered callback, in registration
order, whatever each callback's outcome. -/
theorem notifyAll_fst (s : SyncStatus)
    (cbs : List (Nat × (SyncStatus → Except String Unit))) :
    (notifyAll s cbs).1 = cbs.map Prod.fst := by
  induction cbs with
  | nil => rfl
  | cons c rest ih =>
    obtain ⟨cid, f⟩ := c
    cases h : f s <;> simp [notifyAll, h, ih]

/-- A raising callback's error is caught and logged wherever it sits in
the registration list. -/
theorem notifyAll_logs_mem (s : SyncStatus) :
    ∀ (pre : List (Nat × (SyncStatus → Except String Unit))) (cid : Nat)
      (f : SyncStatus → Except String Unit)
      (post : List (Nat × (SyncStatus → Except String Unit))) (m : String),
      f s = Except.error m →
      (cid, m) ∈ (notifyAll s (pre ++ (cid, f) :: post)).2 := by
  intro pre
  induction pre with
  | nil =>
    intro cid f post m hf
    simp [notifyAll, hf]
  | cons c rest ih =>
    intro cid f post m hf
    obtain ⟨c1, g⟩ := c
    have htail := ih cid f post m hf
    cases h : g s with
    | ok u => simpa [notifyAll, h] using htail
    | error mm =>
      simp only [List.cons_append, notifyAll, h, List.mem_cons]
      exact Or.inr htail

/-- Deciding `_has_changed` against a previous snapshot is exactly the
disagreement of the four compared fields. -/
theorem hasChanged_some_iff (l n : SyncStatus) :
    hasChanged (some l) n = true ↔
      (n.state ≠ l.state ∨ n.uploading_count ≠ l.uploading_count ∨
       n.downloading_count ≠ l.downloading_count ∨
       n.quota_warning ≠ l.quota_warning) := by
  simp only [hasChanged, Bool.or_eq_true, bne_iff_ne]
  tauto

/-- The resolver `get_quota` always returns the pair it leaves in the cache. -/
theorem get_quota_cache_eq :
    ∀ (c : Option (Int × Int)) (l now : Int) (pd : List (String × Json))
      (v : Int × Int) (c1 : Option (Int × Int)) (l1 : Int),
      get_quota c l now pd = some (v, c1, l1) → c1 = some v := by
  intro c l now pd v c1 l1 h
  cases c with
  | none =>
    simp only [get_quota] at h
    rcases Option.map_eq_some'.mp h with ⟨a, _, heq⟩
    simp only [Prod.mk.injEq] at heq
    rw [← heq.2.1, heq.1]
  | some q =>
    simp only [get_quota] at h
    split at h
    · simp only [Option.some.injEq, Prod.mk.injEq] at h
      rw [← h.2.1, h.1]
    · rcases Option.map_eq_some'.mp h with ⟨a, _, heq⟩
      simp only [Prod.mk.injEq] at heq
      rw [← heq.2.1, heq.1]

/-! ## Claim theorems -/

/-- Claim C1: the spec says a missing CLI executable at startup is fatal
(error surfaced, process exits).  The code contradicts this:
`check_available` catches `CLINotFoundError` and returns `False`
(cli_interface.py lines 237-238), so the `except CLINotFoundError`
branch of `JottaTrayApp.start` (main.py lines 71-78) is unreachable and
startup continues into the GTK loop.  This theorem evaluates the
embedded code at the failing input. -/
theorem startup_missing_cli_continues :
    check_available RunOutcome.fileNotFound = Except.ok false ∧
    appStart RunOutcome.fileNotFound = StartAction.continueStartup :=
  ⟨rfl, rfl⟩

/-- Claim C2 counterexample: with a cached quota of 95 of 100 bytes, the
offline snapshot's `quota_warning` is `False` (hardcoded at
status_monitor.py line 203), while the claimed computation from the
resolved used/total against the fixed 90% threshold yields `True`. -/
theorem offline_quota_warning_counterexample :
    (fetch_status_offline (some (95, 100)) 0).quota_warning = false ∧
    detect_quota_warning 95 100 90 = true := by
  refine ⟨rfl, ?_⟩
  unfold detect_quota_warning
  norm_num

/-- Claim C2 as amended: on daemon-unreachable failure the snapshot has
state "offline", used/total from the quota cache (or 0/0 if never
cached), all four counts zero, and `quota_warning` unconditionally
`False` (it is not recomputed from the resolved used/total). -/
theorem offline_snapshot_amended :
    ∀ (u t now : Int),
      fetch_status_offline (some (u, t)) now =
        { state := "offline", used_bytes := u, total_bytes := t,
          local_files := 0, remote_files := 0, uploading_count := 0,
          downloading_count := 0, last_update := now, quota_warning := false } ∧
      fetch_status_offline none now =
        { state := "offline", used_bytes := 0, total_bytes := 0,
          local_files := 0, remote_files := 0, uploading_count := 0,
          downloading_count := 0, last_update := now, quota_warning := false } :=
  fun _ _ _ => ⟨rfl, rfl⟩

/-- Claim C3 counterexample: a timed-out status call does not surface as
a distinct Timeout condition — `run_status` folds it into the generic
gateway failure (`JottaCLIError`, cli_interface.py lines 115-116), the
very constructor used for ordinary non-zero-exit failures, and
`check_available` consequently treats a timeout exactly like the
generic "CLI exists but erroring" case. -/
theorem timeout_generic_counterexample :
    run_status RunOutcome.timeout =
      Except.error (JTError.generic "Status command timed out - daemon may be unresponsive") ∧
    check_available RunOutcome.timeout = Except.ok true :=
  ⟨rfl, rfl⟩

/-- Claim C3 as amended: an external call exceeding its timeout never
hangs the caller — each gateway operation catches
`subprocess.TimeoutExpired` and surfaces it as a `JottaCLIError` generic
gateway failure carrying a command-specific timeout message; no distinct
Timeout condition exists in the code's error taxonomy. -/
theorem timeout_surfaces_as_generic_error :
    run_status RunOutcome.timeout =
      Except.error (JTError.generic "Status command timed out - daemon may be unresponsive") ∧
    run_pause RunOutcome.timeout =
      Except.error (JTError.generic "Pause command timed out") ∧
    run_resume RunOutcome.timeout =
      Except.error (JTError.generic "Resume command timed out") :=
  ⟨rfl, rfl, rfl⟩

/-- Claim C4: for every successfully decoded status payload, the derived
state is "paused" whenever the payload's `Sync.Enabled` flag is false
(regardless of transfer activity), "syncing" whenever it is true and the
`State.Uploading` or `State.Downloading` map is non-empty, and "idle"
whenever it is true and both maps are empty. -/
theorem state_derivation_from_payload :
    ∀ (pd sd : List (String × Json)),
      (dictGet pd "Sync" (Json.obj [])).asDict? = some sd →
      ((dictGet sd "Enabled" (Json.bool true) = Json.bool false →
        determine_state pd = some "paused") ∧
       (∀ st : List (String × Json),
         dictGet sd "Enabled" (Json.bool true) = Json.bool true →
         (dictGet pd "State" (Json.obj [])).asDict? = some st →
         ((∀ fs, dictGet st "Uploading" (Json.obj []) = Json.obj fs → fs ≠ [] →
            determine_state pd = some "syncing") ∧
          (∀ fs, dictGet st "Downloading" (Json.obj []) = Json.obj fs → fs ≠ [] →
            determine_state pd = some "syncing") ∧
          (dictGet st "Uploading" (Json.obj []) = Json.obj [] →
           dictGet st "Downloading" (Json.obj []) = Json.obj [] →
           determine_state pd = some "idle")))) := by
  intro pd sd hsync
  constructor
  · intro hfalse
    simp [determine_state, hsync, hfalse, pyTruthy]
  · intro st htrue hstate
    have hds : determine_state pd = some (parse_sync_state st) := by
      simp [determine_state, hsync, htrue, pyTruthy, hstate]
    refine ⟨?_, ?_, ?_⟩
    · intro fs hup hne
      rw [hds]
      simp [parse_sync_state, hup, List.length_pos, hne]
    · intro fs hdown hne
      rw [hds]
      simp [parse_sync_state, hdown, List.length_pos, hne]
    · intro hup hdown
      rw [hds]
      simp [parse_sync_state, hup, hdown]

/-- Witness for claim C4 at a concrete payload: sync enabled, one file
uploading. -/
theorem state_derivation_witness :
    determine_state pdSyncing = some "syncing" :=
  ((state_derivation_from_payload pdSyncing [("Enabled", Json.bool true)] rfl).2
    [("Uploading", Json.obj [("f.txt", Json.null)])] rfl rfl).1
    [("f.txt", Json.null)] rfl (List.cons_ne_nil _ _)

/-- Claim C9: when the `Sync` section or its `Enabled` flag is absent
from the payload, `_determine_state` treats sync as enabled
(`sync_data.get("Enabled", True)`, status_monitor.py line 218), so a
missing flag never yields the "paused" state. -/
theorem missing_enabled_defaults_true :
    ∀ (pd sd : List (String × Json)),
      (dictGet pd "Sync" (Json.obj [])).asDict? = some sd →
      sd.find? (fun p => p.1 == "Enabled") = none →
      determine_state pd ≠ some "paused" := by
  intro pd sd hsync hfind
  have hget : dictGet sd "Enabled" (Json.bool true) = Json.bool true := by
    simp [dictGet, hfind]
  cases hstate : (dictGet pd "State" (Json.obj [])).asDict? with
  | none => simp [determine_state, hsync, hget, pyTruthy, hstate]
  | some st =>
    simp [determine_state, hsync, hget, pyTruthy, hstate, parse_sync_state_ne_paused st]

/-- Witness for claim C9 at the empty payload (no `Sync` section at
all): the derived state is not "paused". -/
theorem missing_enabled_defaults_true_witness :
    determine_state [] ≠ some "paused" :=
  missing_enabled_defaults_true [] [] rfl rfl

/-- Claim C5: each poll cycle compares the new snapshot to the previous
one on exactly `state`, `uploading_count`, `downloading_count`,
`quota_warning` — agreement on those four suppresses notification
whatever the remaining fields do, disagreement on any of them (or the
absence of a previous snapshot) notifies every subscriber in
registration order — and the new snapshot replaces the stored last known
status in either case. -/
theorem change_detection_and_notification :
    ∀ (st : MonitorState) (status : SyncStatus),
      ((monitorIter st (Except.ok status)).1.last_status = some status) ∧
      (st.last_status = none →
        (monitorIter st (Except.ok status)).2.1 = st.callbacks.map Prod.fst) ∧
      (∀ l, st.last_status = some l →
        ((status.state = l.state ∧ status.uploading_count = l.uploading_count ∧
          status.downloading_count = l.downloading_count ∧
          status.quota_warning = l.quota_warning) →
          (monitorIter st (Except.ok status)).2.1 = []) ∧
        ((status.state ≠ l.state ∨ status.uploading_count ≠ l.uploading_count ∨
          status.downloading_count ≠ l.downloading_count ∨
          status.quota_warning ≠ l.quota_warning) →
          (monitorIter st (Except.ok status)).2.1 = st.callbacks.map Prod.fst)) := by
  intro st status
  refine ⟨?_, ?_, ?_⟩
  · cases h : hasChanged st.last_status status <;> simp [monitorIter, h]
  · intro hnone
    simp [monitorIter, hasChanged, hnone, notifyAll_fst]
  · intro l hl
    constructor
    · intro hsame
      have hc : hasChanged st.last_status status = false := by
        simp [hl, hasChanged, hsame.1, hsame.2.1, hsame.2.2.1, hsame.2.2.2]
      simp [monitorIter, hc]
    · intro hdiff
      have hc : hasChanged st.last_status status = true := by
        rw [hl]
        exact (hasChanged_some_iff l status).mpr hdiff
      simp [monitorIter, hc, notifyAll_fst]

/-- Witness for claim C5: a snapshot differing from the previous one
only in `used_bytes` triggers no notification. -/
theorem change_detection_witness :
    (monitorIter monPrev (Except.ok { sampleStatus with used_bytes := 20 })).2.1 = [] :=
  ((change_detection_and_notification monPrev
      { sampleStatus with used_bytes := 20 }).2.2 sampleStatus rfl).1
    ⟨rfl, rfl, rfl, rfl⟩

/-- Claim C7: an exception raised by a subscriber callback is caught and
logged, does not prevent any other (in particular later-registered)
callback from being invoked with the same snapshot, and the iteration
still completes, storing the new snapshot. -/
theorem callback_exception_isolation :
    ∀ (st : MonitorState) (status : SyncStatus)
      (pre post : List (Nat × (SyncStatus → Except String Unit)))
      (cid : Nat) (f : SyncStatus → Except String Unit) (m : String),
      st.callbacks = pre ++ (cid, f) :: post →
      f status = Except.error m →
      hasChanged st.last_status status = true →
      ((monitorIter st (Except.ok status)).2.1 = st.callbacks.map Prod.fst ∧
       (cid, m) ∈ (monitorIter st (Except.ok status)).2.2 ∧
       (monitorIter st (Except.ok status)).1.last_status = some status) := by
  intro st status pre post cid f m hcb hf hch
  refine ⟨?_, ?_, ?_⟩
  · simp [monitorIter, hch, notifyAll_fst]
  · simp only [monitorIter, hch, if_true]
    rw [hcb]
    exact notifyAll_logs_mem status pre cid f post m hf
  · simp [monitorIter, hch]

/-- Witness for claim C7: with two callbacks of which the first raises,
both are invoked in order and the error is logged. -/
theorem callback_exception_isolation_witness :
    (monitorIter monW (Except.ok sampleStatus)).2.1 = [0, 1] ∧
    (0, "boom") ∈ (monitorIter monW (Except.ok sampleStatus)).2.2 := by
  have h := callback_exception_isolation monW sampleStatus [] [(1, cbOk)] 0 cbFail
    "boom" rfl rfl rfl
  exact ⟨h.1, h.2.1⟩

/-- Claim C6: a quota resolution within the TTL window of the previous
one returns the identical cached (used, total) pair whatever the payload
now says, and a resolution with the cache absent or older than the TTL
reads `User.AccountInfo.Usage` / `.Capacity` from the payload and
refreshes the cache and its timestamp. -/
theorem quota_cache_ttl :
    (∀ (q : Int × Int) (lastCheck now : Int) (pd : List (String × Json)),
       now - lastCheck < QUOTA_CACHE_TTL →
       get_quota (some q) lastCheck now pd = some (q, some q, lastCheck)) ∧
    (∀ (c0 : Option (Int × Int)) (l0 t0 t1 : Int) (p1 p2 : List (String × Json))
       (v : Int × Int) (c1 : Option (Int × Int)) (l1 : Int),
       get_quota c0 l0 t0 p1 = some (v, c1, l1) →
       t1 - l1 < QUOTA_CACHE_TTL →
       get_quota c1 l1 t1 p2 = some (v, c1, l1)) ∧
    (∀ (c : Option (Int × Int)) (l now : Int) (pd : List (String × Json)) (u t : Int),
       (c = none ∨ QUOTA_CACHE_TTL < now - l) →
       fresh_quota_vals pd = some (u, t) →
       get_quota c l now pd = some ((u, t), some (u, t), now)) := by
  refine ⟨?_, ?_, ?_⟩
  · intro q lastCheck now pd h
    simp [get_quota, h]
  · intro c0 l0 t0 t1 p1 p2 v c1 l1 h ht
    have hc1 : c1 = some v := get_quota_cache_eq c0 l0 t0 p1 v c1 l1 h
    subst hc1
    simp [get_quota, ht]
  · intro c l now pd u t hcond hf
    rcases hcond with rfl | hgt
    · simp [get_quota, hf]
    · cases c with
      | none => simp [get_quota, hf]
      | some q =>
        have hnl : ¬ (now - l < QUOTA_CACHE_TTL) := not_lt.mpr (le_of_lt hgt)
        simp [get_quota, hnl, hf]

/-- Witness for claim C6: a cache refreshed at time 0 is reused
unchanged at time 100 against a payload that no longer mentions any
quota. -/
theorem quota_cache_ttl_witness :
    get_quota (some (5, 10)) 0 100 [] = some ((5, 10), some (5, 10), 0) :=
  quota_cache_ttl.1 (5, 10) 0 100 [] (by decide)

/-- Claim C10: `install_autostart` and `uninstall_autostart` never
raise — every primitive failure (`AutostartError` for a missing
template, `PermissionError`, any other exception) is caught and mapped
to a `(False, message)` result with the filesystem untouched — and
`uninstall_autostart` is idempotent: when the autostart file does not
exist it returns success with the "already disabled" message and changes
nothing on disk. -/
theorem autostart_total_and_idempotent :
    ∀ (env : AutostartEnv),
      (env.file_exists = false →
        uninstall_autostart env = ((true, "Autostart is already disabled."), env)) ∧
      (∀ m, env.file_exists = true → env.unlink_result = PrimResult.permError m →
        uninstall_autostart env =
          ((false, "Permission denied: Unable to remove autostart file.\n" ++ m), env)) ∧
      (∀ m, env.file_exists = true → env.unlink_result = PrimResult.otherError m →
        uninstall_autostart env =
          ((false, "Failed to remove autostart:\n" ++ m), env)) ∧
      (env.template_exists = false →
        (install_autostart env).1.1 = false ∧ (install_autostart env).2 = env) ∧
      (∀ m, env.template_exists = true →
        (env.mkdir_result = PrimResult.permError m ∨
         env.mkdir_result = PrimResult.otherError m) →
        (install_autostart env).1.1 = false ∧ (install_autostart env).2 = env) ∧
      (∀ m, env.template_exists = true → env.mkdir_result = PrimResult.ok →
        (env.copy_result = PrimResult.permError m ∨
         env.copy_result = PrimResult.otherError m) →
        (install_autostart env).1.1 = false ∧ (install_autostart env).2 = env) := by
  intro env
  refine ⟨?_, ?_, ?_, ?_, ?_, ?_⟩
  · intro hfe
    simp [uninstall_autostart, hfe]
  · intro m hfe hun
    simp [uninstall_autostart, hfe, hun]
  · intro m hfe hun
    simp [uninstall_autostart, hfe, hun]
  · intro hte
    simp [install_autostart, hte]
  · intro m hte hmk
    rcases hmk with hmk | hmk <;> simp [install_autostart, hte, hmk]
  · intro m hte hmk hcp
    rcases hcp with hcp | hcp <;> simp [install_autostart, hte, hmk, hcp]

/-- Witness for claim C10: uninstalling when no autostart file exists
reports success and leaves the environment unchanged. -/
theorem autostart_witness :
    uninstall_autostart envBase = ((true, "Autostart is already disabled."), envBase) :=
  (autostart_total_and_idempotent envBase).1 rfl

/-- String concatenation is associative. -/
theorem string_append_assoc (a b c : String) : a ++ b ++ c = a ++ (b ++ c) := by
  apply String.ext
  simp [String.data_append, List.append_assoc]

/-- Unfolding of one iteration of the `format_bytes` division loop. -/
theorem fbGo_succ (v : Rat) (i r : Nat) :
    fbGo v i (r + 1) = if 1024 ≤ v then fbGo (v / 1024) (i + 1) r else (v, i) := rfl

/-- The loop exits when the remaining-division budget is exhausted. -/
theorem fbGo_zero (v : Rat) (i : Nat) : fbGo v i 0 = (v, i) := rfl

/-- The loop guard at tier `i`, phrased on the undivided value. -/
theorem le_div_pow_iff (x : Rat) (i : Nat) :
    1024 ≤ x / 1024 ^ i ↔ 1024 ^ (i + 1) ≤ x := by
  rw [le_div_iff₀ (by positivity), ← pow_succ']

/-- One more division happens while the value still reaches the next
tier boundary. -/
theorem fbGo_step (x : Rat) (i r : Nat) (hx : (1024 : Rat) ^ (i + 1) ≤ x) :
    fbGo (x / 1024 ^ i) i (r + 1) = fbGo (x / 1024 ^ (i + 1)) (i + 1) r := by
  rw [fbGo_succ, if_pos ((le_div_pow_iff x i).mpr hx), div_div, ← pow_succ]

/-- The loop stops as soon as the value is below the next tier
boundary. -/
theorem fbGo_stop (x : Rat) (i r : Nat) (hx : ¬ (1024 : Rat) ^ (i + 1) ≤ x) :
    fbGo (x / 1024 ^ i) i r = (x / 1024 ^ i, i) := by
  cases r with
  | zero => rfl
  | succ r => rw [fbGo_succ, if_neg (fun hc => hx ((le_div_pow_iff x i).mp hc))]

/-- Rat.floor of an integer cast is that integer. -/
theorem rat_floor_intCast (z : Int) : ((z : Rat)).floor = z := by
  rw [Rat.floor_def', Rat.num_intCast, Rat.den_intCast]
  simp

/-- Rounding an exact integer changes nothing. -/
theorem roundHalfEven_intCast (z : Int) : roundHalfEven ((z : Rat)) = z := by
  unfold roundHalfEven
  rw [rat_floor_intCast]
  norm_num

/-- Fixed-point rendering of the exact value 1 with one decimal. -/
theorem formatFixed_one : formatFixed 1 1 = "1.0" := by
  unfold formatFixed
  have h : (1 : Rat) * (10 : Rat) ^ 1 = ((10 : Int) : Rat) := by norm_num
  rw [h, roundHalfEven_intCast]
  decide

/-- The division loop of `format_bytes` lands exactly on the
spec-described unit tier. -/
theorem fbGo_eq (n : Int) (hn : 0 ≤ n) :
    fbGo (n : Rat) 0 5 = ((n : Rat) / 1024 ^ specUnitIndex n, specUnitIndex n) := by
  rcases lt_or_le n 1024 with h1 | h1
  · have hk : specUnitIndex n = 0 := by
      unfold specUnitIndex
      split_ifs <;> omega
    have c1 : ¬ (1024 : Rat) ^ 1 ≤ (n : Rat) := by
      rw [not_le, pow_one]
      exact_mod_cast h1
    rw [hk]
    calc fbGo ((n : Rat)) 0 5 = fbGo ((n : Rat) / 1024 ^ 0) 0 5 := by rw [pow_zero, div_one]
      _ = ((n : Rat) / 1024 ^ 0, 0) := fbGo_stop _ 0 5 c1
  · have c1 : (1024 : Rat) ^ 1 ≤ (n : Rat) := by
      rw [pow_one]
      exact_mod_cast h1
    rcases lt_or_le n 1048576 with h2 | h2
    · have hk : specUnitIndex n = 1 := by
        unfold specUnitIndex
        norm_num
        split_ifs <;> omega
      have c2 : ¬ (1024 : Rat) ^ 2 ≤ (n : Rat) := by
        rw [not_le]
        norm_num
        exact_mod_cast h2
      rw [hk]
      calc fbGo ((n : Rat)) 0 5 = fbGo ((n : Rat) / 1024 ^ 0) 0 5 := by rw [pow_zero, div_one]
        _ = fbGo ((n : Rat) / 1024 ^ 1) 1 4 := fbGo_step _ 0 4 c1
        _ = ((n : Rat) / 1024 ^ 1, 1) := fbGo_stop _ 1 4 c2
    · have c2 : (1024 : Rat) ^ 2 ≤ (n : Rat) := by
        norm_num
        exact_mod_cast h2
      rcases lt_or_le n 1073741824 with h3 | h3
      · have hk : specUnitIndex n = 2 := by
          unfold specUnitIndex
          norm_num
          split_ifs <;> omega
        have c3 : ¬ (1024 : Rat) ^ 3 ≤ (n : Rat) := by
          rw [not_le]
          norm_num
          exact_mod_cast h3
        rw [hk]
        calc fbGo ((n : Rat)) 0 5 = fbGo ((n : Rat) / 1024 ^ 0) 0 5 := by
              rw [pow_zero, div_one]
          _ = fbGo ((n : Rat) / 1024 ^ 1) 1 4 := fbGo_step _ 0 4 c1
          _ = fbGo ((n : Rat) / 1024 ^ 2) 2 3 := fbGo_step _ 1 3 c2
          _ = ((n : Rat) / 1024 ^ 2, 2) := fbGo_stop _ 2 3 c3
      · have c3 : (1024 : Rat) ^ 3 ≤ (n : Rat) := by
          norm_num
          exact_mod_cast h3
        rcases lt_or_le n 1099511627776 with h4 | h4
        · have hk : specUnitIndex n = 3 := by
            unfold specUnitIndex
            norm_num
            split_ifs <;> omega
          have c4 : ¬ (1024 : Rat) ^ 4 ≤ (n : Rat) := by
            rw [not_le]
            norm_num
            exact_mod_cast h4
          rw [hk]
          calc fbGo ((n : Rat)) 0 5 = fbGo ((n : Rat) / 1024 ^ 0) 0 5 := by
                rw [pow_zero, div_one]
            _ = fbGo ((n : Rat) / 1024 ^ 1) 1 4 := fbGo_step _ 0 4 c1
            _ = fbGo ((n : Rat) / 1024 ^ 2) 2 3 := fbGo_step _ 1 3 c2
            _ = fbGo ((n : Rat) / 1024 ^ 3) 3 2 := fbGo_step _ 2 2 c3
            _ = ((n : Rat) / 1024 ^ 3, 3) := fbGo_stop _ 3 2 c4
        · have c4 : (1024 : Rat) ^ 4 ≤ (n : Rat) := by
            norm_num
            exact_mod_cast h4
          rcases lt_or_le n 1125899906842624 with h5 | h5
          · have hk : specUnitIndex n = 4 := by
              unfold specUnitIndex
              norm_num
              split_ifs <;> omega
            have c5 : ¬ (1024 : Rat) ^ 5 ≤ (n : Rat) := by
              rw [not_le]
              norm_num
              exact_mod_cast h5
            rw [hk]
            calc fbGo ((n : Rat)) 0 5 = fbGo ((n : Rat) / 1024 ^ 0) 0 5 := by
                  rw [pow_zero, div_one]
              _ = fbGo ((n : Rat) / 1024 ^ 1) 1 4 := fbGo_step _ 0 4 c1
              _ = fbGo ((n : Rat) / 1024 ^ 2) 2 3 := fbGo_step _ 1 3 c2
              _ = fbGo ((n : Rat) / 1024 ^ 3) 3 2 := fbGo_step _ 2 2 c3
              _ = fbGo ((n : Rat) / 1024 ^ 4) 4 1 := fbGo_step _ 3 1 c4
              _ = ((n : Rat) / 1024 ^ 4, 4) := fbGo_stop _ 4 1 c5
          · have c5 : (1024 : Rat) ^ 5 ≤ (n : Rat) := by
              norm_num
              exact_mod_cast h5
            have hk : specUnitIndex n = 5 := by
              unfold specUnitIndex
              norm_num
              split_ifs <;> omega
            rw [hk]
            calc fbGo ((n : Rat)) 0 5 = fbGo ((n : Rat) / 1024 ^ 0) 0 5 := by
                  rw [pow_zero, div_one]
              _ = fbGo ((n : Rat) / 1024 ^ 1) 1 4 := fbGo_step _ 0 4 c1
              _ = fbGo ((n : Rat) / 1024 ^ 2) 2 3 := fbGo_step _ 1 3 c2
              _ = fbGo ((n : Rat) / 1024 ^ 3) 3 2 := fbGo_step _ 2 2 c3
              _ = fbGo ((n : Rat) / 1024 ^ 4) 4 1 := fbGo_step _ 3 1 c4
              _ = fbGo ((n : Rat) / 1024 ^ 5) 5 0 := fbGo_step _ 4 0 c5
              _ = ((n : Rat) / 1024 ^ 5, 5) := fbGo_zero _ 5

/-- Refinement: `format_bytes` agrees with the spec-side description on every
input. -/
theorem format_bytes_refines (n : Int) (d : Nat) :
    format_bytes n d = specFormatBytes n d := by
  by_cases hneg : n < 0
  · simp [format_bytes, specFormatBytes, hneg]
  · have hn : 0 ≤ n := not_lt.mp hneg
    have hlen : fbUnits.length - 1 = 5 := rfl
    unfold format_bytes specFormatBytes
    rw [if_neg hneg, if_neg hneg, hlen, fbGo_eq n hn]
    by_cases hk : specUnitIndex n = 0
    · rw [hk]
      simp only [pow_zero, div_one, rat_floor_intCast, if_true]
      rw [string_append_assoc]
      have hb : (" " ++ fbUnits.getD 0 "B" : String) = " B" := by decide
      rw [hb]
    · simp only [if_neg hk]

/-- Claim C8: `format_bytes` refines the spec's description — the unit
is chosen by repeated division by 1024 across B/KB/MB/GB/TB/PB until the
value is below 1024 or the largest unit is reached, the B tier prints
zero decimal places and higher tiers the configured decimal count, and
negative input clamps to "0 B" — together with the spec's three
concrete examples and a negative example. -/
theorem format_bytes_spec :
    (∀ (n : Int) (d : Nat), format_bytes n d = specFormatBytes n d) ∧
    format_bytes 1024 1 = "1.0 KB" ∧
    format_bytes 1073741824 1 = "1.0 GB" ∧
    format_bytes 500 1 = "500 B" ∧
    format_bytes (-7) 1 = "0 B" := by
  refine ⟨format_bytes_refines, ?_, ?_, ?_, ?_⟩
  · rw [format_bytes_refines 1024 1]
    have hk : specUnitIndex 1024 = 1 := by
      unfold specUnitIndex
      norm_num
    unfold specFormatBytes
    rw [if_neg (by norm_num), hk]
    have hv : ((1024 : Int) : Rat) / 1024 ^ 1 = 1 := by norm_num
    simp only [hv, formatFixed_one]
    decide
  · rw [format_bytes_refines 1073741824 1]
    have hk : specUnitIndex 1073741824 = 3 := by
      unfold specUnitIndex
      norm_num
    unfold specFormatBytes
    rw [if_neg (by norm_num), hk]
    have hv : ((1073741824 : Int) : Rat) / 1024 ^ 3 = 1 := by norm_num
    simp only [hv, formatFixed_one]
    decide
  · rw [format_bytes_refines 500 1]
    unfold specFormatBytes
    rw [if_neg (by norm_num)]
    have hk : specUnitIndex 500 = 0 := by
      unfold specUnitIndex
      norm_num
    rw [hk]
    decide
  · rw [format_bytes_refines (-7) 1]
    unfold specFormatBytes
    rw [if_pos (by norm_num)]

end JottaTray
